import Mathlib

/-!
# Verification of the resilient paginated harvester

Shallow embedding of `src/backend/scripts/scholar_crawler.py`: the retrying
query client (`retry` decorator + `WDQSClient._run_once`), the paginator
(`WDQSClient.paged`), the per-partition harvester with checkpointing
(`download_people_per_occ`, `_csv_has_data`), the consolidation pass
(`consolidate_people`), and the failure-report accumulation in `main`.

The remote service is modelled as an environment: a list of responses that
successive network calls consume in order.  Durations slept are tracked as
naturals (the script only ever sleeps integral amounts: `Retry-After`
seconds, and the decorator delay 1.0 * 2.0^k, exact in floating point for
the attempt counts involved).
-/

set_option autoImplicit false

namespace ScholarCrawler

/-- One CSV record, with the fixed 12-field header written by
`download_people_per_occ` (header list at lines 236-249 of the source). -/
structure Row where
  person_id : String
  label_en : String
  birth : String
  death : String
  gender : String
  nationality : String
  ethnicity : String
  religion : String
  movement : String
  notable_work : String
  occ_id : String
  occ_label : String
  deriving DecidableEq, Repr

/-- One SPARQL result binding as returned in `results.bindings`: the
`person` key is always present, every other key optional (the Python code
reads them with `row.get(k, {}).get("value", "")`). -/
structure Binding where
  person : String
  personLabel : Option String
  birth : Option String
  death : Option String
  genderLabel : Option String
  countryLabel : Option String
  ethnicityLabel : Option String
  religionLabel : Option String
  movementLabel : Option String
  notableWorkLabel : Option String
  deriving DecidableEq, Repr

/-- `row["person"]["value"].split("/")[-1]`. -/
def lastSegment (s : String) : String := ((s.splitOn "/").reverse).headD s

/-- The dict written by `writer.writerow` for one binding
(source lines 264-281): optional values default to the empty string,
`occ_id`/`occ_label` come from the surrounding call. -/
def writeRow (b : Binding) (occId occLabel : String) : Row :=
  ⟨lastSegment b.person, b.personLabel.getD "", b.birth.getD "",
   b.death.getD "", b.genderLabel.getD "", b.countryLabel.getD "",
   b.ethnicityLabel.getD "", b.religionLabel.getD "",
   b.movementLabel.getD "", b.notableWorkLabel.getD "",
   occId, occLabel⟩

/-!
## Checkpoint store

A partition's on-disk file is modelled as `Option (List Row)`:
`none` = the file does not exist, `some rows` = a file holding the fixed
header line plus one line per data row.  (`_csv_has_data` counts physical
lines; for the well-formed CSV files this program reads and writes, the
file has at least two lines exactly when it has at least one data row.)
-/

/-- `_csv_has_data` (source lines 215-225): `next(fp)` twice succeeds iff
the file exists and has a second line, i.e. at least one data row; an
absent file, an empty file, or a header-only file give `False` via the
`StopIteration` handler. -/
def csv_has_data : Option (List Row) → Bool
  | none => false
  | some rows => !rows.isEmpty

/-!
## Paginator (`WDQSClient.paged`, source lines 141-152)

Each iteration substitutes the current offset and `cfg.page_size` into the
template and calls `_run_once`.  The environment entry consumed by one such
call is the outcome `_run_once` (with its internal retries already spent)
delivers to the paginator:
  * `batch rows`   — a successful result list (empty terminates pagination);
  * `capacityErr`  — a `requests.HTTPError` whose response code is in
    {429, 502, 503, 504} escaped the retry ceiling (the only way the code
    raises `requests.HTTPError`);
  * `fatalErr`     — any exception `download_people_per_occ` does not
    catch (e.g. a `urllib` `HTTPError` with another status code, or a
    connection error that exhausted its retries).
An exhausted environment behaves as a server that returns empty pages.
-/

inductive PageOutcome
  | batch (rows : List Binding)
  | capacityErr
  | fatalErr
  deriving DecidableEq, Repr

inductive PagedExit
  | normal
  | capacity
  | fatal
  deriving DecidableEq, Repr

/-- Result of running one `paged` generator to its end (normal
termination or escaped exception): the `(offset, limit)` pairs of the
`_run_once` calls it made, the bindings it yielded, how it ended, and the
environment left for later calls. -/
structure PagedOut where
  trace : List (Nat × Nat)
  rows : List Binding
  exit : PagedExit
  rest : List PageOutcome
  deriving DecidableEq, Repr

/-- `WDQSClient.paged`: offset starts at 0 (at the given start value here,
to state offset lemmas); on a non-empty batch the rows are yielded and the
offset advances by `cfg.page_size`; an empty batch breaks the loop; an
exception propagates out of the generator. -/
def pagedRun : List PageOutcome → Nat → Nat → PagedOut
  | [], ps, offset => ⟨[(offset, ps)], [], .normal, []⟩
  | .batch rs :: rest, ps, offset =>
    if rs.isEmpty then ⟨[(offset, ps)], [], .normal, rest⟩
    else
      let nxt := pagedRun rest ps (offset + ps)
      ⟨(offset, ps) :: nxt.trace, rs ++ nxt.rows, nxt.exit, nxt.rest⟩
  | .capacityErr :: rest, ps, offset => ⟨[(offset, ps)], [], .capacity, rest⟩
  | .fatalErr :: rest, ps, offset => ⟨[(offset, ps)], [], .fatal, rest⟩

/-!
## Partition harvester (`download_people_per_occ`, source lines 228-307)
-/

/-- The four ways `download_people_per_occ` can finish: `skipped` is the
checkpoint early `return` (Python value `None`), `completed` is
`return True`, `abandoned` is `return False` after the
`while consecutive_fail < 3` loop ends, `fatal` is a propagating
exception. -/
inductive HarvestRet
  | skipped
  | completed
  | abandoned
  | fatal
  deriving DecidableEq, Repr

/-- Observable result of one `download_people_per_occ` call: return kind,
final file contents, final `client.cfg.page_size`, the `(offset, limit)`
trace of every page fetched over the whole partition run, the final value
of `consecutive_fail`, and the value `consecutive_fail` had at the start
of each pagination attempt. -/
structure HarvestOut where
  ret : HarvestRet
  file : Option (List Row)
  pageSizeFinal : Nat
  trace : List (Nat × Nat)
  cfFinal : Nat
  cfTrace : List Nat
  deriving DecidableEq, Repr

/-- `client.cfg.page_size = max(500, client.cfg.page_size // 2)`
(source line 294). -/
def shrinkPageSize (ps : Nat) : Nat := max 500 (ps / 2)

/-- The `while consecutive_fail < 3` loop body (source lines 260-303).
`fuel` is `3 - consecutive_fail`, so `fuel = 0` is the loop condition
failing and the partition being abandoned (source lines 305-307, which
restore the page size before `return False`).  Each iteration runs a fresh
`client.paged(query)` generator from offset 0, appending every yielded row
to the already-open file; on normal termination the page size is restored
and the call returns `True` (lines 282-283); on a capacity error the
counter increments and the page size halves (lines 293-294); any other
exception propagates with the page size left as it was. -/
def harvestLoop (occId occLabel : String) :
    Nat → List PageOutcome → Nat → Nat → Nat → List Row →
    List (Nat × Nat) → List Nat → HarvestOut
  | 0, _env, _ps, origPs, cf, written, tr, cfs =>
    ⟨.abandoned, some written, origPs, tr, cf, cfs⟩
  | fuel + 1, env, ps, origPs, cf, written, tr, cfs =>
    let p := pagedRun env ps 0
    let w := written ++ p.rows.map (fun b => writeRow b occId occLabel)
    let tr2 := tr ++ p.trace
    let cfs2 := cfs ++ [cf]
    match p.exit with
    | .normal => ⟨.completed, some w, origPs, tr2, cf, cfs2⟩
    | .fatal => ⟨.fatal, some w, ps, tr2, cf, cfs2⟩
    | .capacity =>
      harvestLoop occId occLabel fuel p.rest (shrinkPageSize ps) origPs
        (cf + 1) w tr2 cfs2

/-- `download_people_per_occ`: checkpoint test first (lines 231-234, an
early bare `return` that touches neither the file nor the page size and
performs no fetch); otherwise the file is opened in `"w"` mode (truncating
any previous content), the header written, and the retry loop entered with
`consecutive_fail = 0` and `original_page_size` captured from the shared
config. -/
def download_people_per_occ (env : List PageOutcome) (file : Option (List Row))
    (ps : Nat) (occId occLabel : String) : HarvestOut :=
  if csv_has_data file then ⟨.skipped, file, ps, [], 0, []⟩
  else harvestLoop occId occLabel 3 env ps ps 0 [] [] []

/-!
## Query client (`retry` decorator, lines 80-101; `_run_once`, lines 117-139)

One network attempt is an environment entry:
  * `ok rows`     — the endpoint answered; `results.bindings` extracted;
  * `urlErr c ra` — `urllib.error.HTTPError` with status `c`, and the
    `Retry-After` header (`ra`) if the server sent one;
  * `connErr`     — `ConnectionError` / `RemoteDisconnected` /
    `JSONDecodeError`.
-/

inductive Attempt
  | ok (rows : List Binding)
  | urlErr (code : Nat) (retryAfter : Option Nat)
  | connErr
  deriving DecidableEq, Repr

/-- The exception (if any) escaping one `_run_once` body: `reqHTTP c` is
the `requests.HTTPError` raised at line 138 for the retryable status
family, `urlHTTP c` the re-raised `urllib` error for every other status,
`conn` a connection-level error. -/
inductive ClientErr
  | reqHTTP (code : Nat)
  | urlHTTP (code : Nat)
  | conn
  deriving DecidableEq, Repr

inductive RunResult
  | ok (rows : List Binding)
  | err (e : ClientErr)
  deriving DecidableEq, Repr

/-- The status set of line 133: `{502, 503, 504, 429}`. -/
def retryableCodes : List Nat := [502, 503, 504, 429]

/-- One execution of the `_run_once` body (lines 127-139): on a status in
`retryableCodes` it sleeps `int(e.headers.get("Retry-After", "30"))`
seconds and raises `requests.HTTPError`; on any other HTTP status it
re-raises without sleeping; connection errors propagate as they are.
Returns the outcome plus the seconds slept inside the body. -/
def runOnceStep : Attempt → RunResult × List Nat
  | .ok rows => (.ok rows, [])
  | .urlErr c ra =>
    if c ∈ retryableCodes then (.err (.reqHTTP c), [ra.getD 30])
    else (.err (.urlHTTP c), [])
  | .connErr => (.err .conn, [])

/-- Result of `_run_once` with its `retry` wrapper: the final outcome, the
full sequence of sleeps (inner `Retry-After` sleeps and the decorator's
`time.sleep(delay)` calls, in order), and how many attempts were made. -/
structure RetryOut where
  result : RunResult
  sleeps : List Nat
  calls : Nat
  deriving DecidableEq, Repr

/-- The `retry` decorator loop (lines 85-97): `tries` starts at
`max_retries`, `delay` at 1.0.  Every exception in the decorated tuple
(`requests.ConnectionError`, `requests.HTTPError`, `urllib` `HTTPError`,
`JSONDecodeError`, `RemoteDisconnected` — all three modelled error kinds)
decrements `tries`; when `tries` hits 0 the exception is re-raised,
otherwise the decorator sleeps `delay` and doubles it.  An exhausted
environment behaves as a succeeding call with an empty batch. -/
def retryRun : List Attempt → Nat → Nat → RetryOut
  | [], _tries, _delay => ⟨.ok [], [], 1⟩
  | a :: rest, tries, delay =>
    match runOnceStep a with
    | (.ok rows, s) => ⟨.ok rows, s, 1⟩
    | (.err e, s) =>
      if tries ≤ 1 then ⟨.err e, s, 1⟩
      else
        let r := retryRun rest (tries - 1) (delay * 2)
        ⟨r.result, s ++ delay :: r.sleeps, r.calls + 1⟩

/-- `WDQSClient._run_once` as called through its decorator, which is
applied with `max_retries=3` (line 125). -/
def runOnce (env : List Attempt) : RetryOut := retryRun env 3 1

/-!
## Consolidation (`consolidate_people`, source lines 310-347)
-/

/-- Read exactly `n` decimal digits off the front of a character list,
returning their value and the remaining characters. -/
def readDigits (acc : Nat) : Nat → List Char → Option (Nat × List Char)
  | 0, cs => some (acc, cs)
  | _ + 1, [] => none
  | n + 1, c :: cs =>
    if c.isDigit then readDigits (acc * 10 + (c.toNat - 48)) n cs else none

/-- Parse a WDQS-shaped date string into (year, month, day):
`YYYY` (pandas reads it as January 1st), `YYYY-MM` (day 1), `YYYY-MM-DD`,
or `YYYY-MM-DDT…` (WDQS timestamps always carry a midnight `T00:00:00Z`
time part).  Anything else does not parse. -/
def parseYMD (cs : List Char) : Option (Nat × Nat × Nat) :=
  match readDigits 0 4 cs with
  | none => none
  | some (y, rest) =>
    match rest with
    | [] => some (y, 1, 1)
    | '-' :: rest2 =>
      match readDigits 0 2 rest2 with
      | none => none
      | some (m, rest3) =>
        match rest3 with
        | [] => some (y, m, 1)
        | '-' :: rest4 =>
          match readDigits 0 2 rest4 with
          | none => none
          | some (d, rest5) =>
            match rest5 with
            | [] => some (y, m, d)
            | 'T' :: _ => some (y, m, d)
            | _ => none
        | _ => none
    | _ => none

/-- Proleptic-Gregorian leap year, as pandas uses. -/
def isLeap (y : Nat) : Bool := (y % 4 == 0 && y % 100 != 0) || y % 400 == 0

def daysInMonth (y m : Nat) : Nat :=
  if m == 2 then (if isLeap y then 29 else 28)
  else if m == 4 || m == 6 || m == 9 || m == 11 then 30
  else 31

/-- A real calendar date (pandas coerces impossible dates such as
month 13 or February 30th to `NaT`). -/
def validYMD (y m d : Nat) : Bool :=
  decide (1 ≤ m) && decide (m ≤ 12) && decide (1 ≤ d) &&
    decide (d ≤ daysInMonth y m)

/-- Lexicographic order on (year, month, day). -/
def ymdLe (a b : Nat × Nat × Nat) : Bool :=
  decide (a.1 < b.1) ||
  (decide (a.1 = b.1) &&
    (decide (a.2.1 < b.2.1) ||
     (decide (a.2.1 = b.2.1) && decide (a.2.2 ≤ b.2.2))))

/-- Model of `pd.to_datetime(s, errors="coerce", utc=True).dt.year` on the
value space this program feeds it: WDQS timestamp strings
(`YYYY-MM-DDThh:mm:ssZ`, the time part always midnight) or a bare `YYYY`.
`errors="coerce"` never raises: the empty string, anything pandas cannot
parse, impossible calendar dates, and — because the result dtype is
`datetime64[ns]` — dates outside the representable range coerce to `NaT`
(`none`).  `Timestamp.min` is 1677-09-21 00:12:43.145224193 and
`Timestamp.max` is 2262-04-11 23:47:16.854775807, so the midnight
timestamps this program parses are representable exactly for dates from
1677-09-22 through 2262-04-11: e.g. a birth of 1596 or a death of 1650
(routine in this dataset) coerces to `NaT`, it does not parse to its
year. -/
def parseYear (s : String) : Option Int :=
  match parseYMD s.data with
  | none => none
  | some (y, m, d) =>
    if validYMD y m d && ymdLe (1677, 9, 22) (y, m, d) &&
        ymdLe (y, m, d) (2262, 4, 11) then
      some (Int.ofNat y)
    else none

/-- The row mask of source lines 339-342:
`df["birth_dt"].dt.year.le(1901) & df["death_dt"].dt.year.ge(1800)
 | df["death_dt"].isna()`.
In pandas a comparison against `NaT` is `False`, and `&` binds tighter
than `|`. -/
def keepRow (r : Row) : Bool :=
  ((match parseYear r.birth with
    | some b => decide (b ≤ 1901)
    | none => false)
   &&
   (match parseYear r.death with
    | some d => decide (1800 ≤ d)
    | none => false))
  || (parseYear r.death).isNone

/-- The keep-predicate exactly as the specification states it, with bounds
lower = 1800 and upper = 1900; written from the claim text to compare
against `keepRow`, which is translated from the source. -/
def keepRowClaimed (r : Row) : Bool :=
  ((match parseYear r.birth with
    | some b => decide (b ≤ 1900)
    | none => false)
   &&
   (match parseYear r.death with
    | some d => decide (1800 ≤ d)
    | none => false))
  || (parseYear r.death).isNone

/-- `consolidate_people`: reads every `people_*.csv` for which
`_csv_has_data` holds (line 320-324); with no readable frame it logs and
returns without touching `processed/scholars.csv` (`prev` is whatever that
file held before, and is the result when nothing is written); otherwise it
concatenates the frames, drops any column named `field` case-insensitively
(a no-op on the fixed 12-field header, none of whose names is `field`),
filters by `keepRow`, and overwrites `processed/scholars.csv`. -/
def consolidate_people (files : List (Option (List Row)))
    (prev : Option (List Row)) : Option (List Row) :=
  let frames := files.filterMap fun f => if csv_has_data f then f else none
  if frames.isEmpty then prev
  else some (frames.flatten.filter keepRow)

/-!
## Driver (`main`, source lines 353-415)
-/

/-- One enumerated occupation together with its pre-existing partition
file and the server behaviour its harvest will see. -/
structure OccTask where
  occ_id : String
  occ_label : String
  file : Option (List Row)
  env : List PageOutcome
  deriving Repr

/-- Python truthiness of the value `download_people_per_occ` returns, as
tested by `if not ok:` (line 369): `True` (completed) is truthy; `False`
(abandoned) and `None` (the checkpoint skip's bare `return`) are falsy;
a fatal harvest never returns a value. -/
def retTruthy : HarvestRet → Bool
  | .completed => true
  | _ => false

/-- The `failed` list built by the loop of lines 366-370, threading the
shared `cfg.page_size` through successive harvests: `none` means a fatal
exception aborted `main` before the failure report was written. -/
def mainFailed : Nat → List OccTask → Option (List (String × String))
  | _ps, [] => some []
  | ps, t :: ts =>
    let r := download_people_per_occ t.env t.file ps t.occ_id t.occ_label
    if r.ret = .fatal then none
    else
      match mainFailed r.pageSizeFinal ts with
      | none => none
      | some fs =>
        some (if retTruthy r.ret then fs else (t.occ_id, t.occ_label) :: fs)

/-- The value of the shared `cfg.page_size` at the start of each
successive partition harvest (the fatal partition, if any, is the last
one started). -/
def runStartSizes : Nat → List OccTask → List Nat
  | _ps, [] => []
  | ps, t :: ts =>
    let r := download_people_per_occ t.env t.file ps t.occ_id t.occ_label
    if r.ret = .fatal then [ps]
    else ps :: runStartSizes r.pageSizeFinal ts

/-!
## Concrete inputs used by witnesses and counterexamples
-/

/-- A binding carrying only the mandatory `person` URI. -/
def b1 : Binding :=
  ⟨"http://www.wikidata.org/entity/Q100", none, none, none, none, none,
   none, none, none, none⟩

/-- The CSV row `writerow` produces for `b1` under occupation `Q1`/`x`. -/
def rowB1 : Row := writeRow b1 "Q1" "x"

/-- A server that answers one non-empty page, then fails with a capacity
error, then answers an empty page. -/
def envC2 : List PageOutcome := [.batch [b1], .capacityErr, .batch []]

/-- A server that fails with a capacity error first, then answers one
non-empty page and one empty page. -/
def envC3 : List PageOutcome := [.capacityErr, .batch [b1], .batch []]

/-- A row with the given birth and death timestamps and fixed identity
fields. -/
def mkRow (birth death : String) : Row :=
  ⟨"Q100", "Test Person", birth, death, "", "", "", "", "", "", "Q1",
   "philosopher"⟩

def p1row : Row := mkRow "1810-01-01T00:00:00Z" "1870-01-01T00:00:00Z"

def p2row : Row := mkRow "1950-01-01T00:00:00Z" "1999-01-01T00:00:00Z"

/-- Born 1901, died 1850-per-string (values only need to parse): its birth
year separates the upper bound 1901 the code uses from the bound 1900 the
claim states. -/
def lateRow : Row := mkRow "1901-06-01T00:00:00Z" "1850-01-01T00:00:00Z"

/-- A Descartes-like row (born 1596, died 1650): both dates predate the
`datetime64[ns]` range, so `pd.to_datetime(…, errors="coerce")` turns
both into `NaT` and consolidation keeps the row through the
`isna` clause. -/
def earlyRow : Row := mkRow "1596-03-31T00:00:00Z" "1650-02-11T00:00:00Z"

/-!
## Helper lemmas
-/

lemma pagedRun_trace_eq (env : List PageOutcome) (ps : Nat) :
    ∀ offset, (pagedRun env ps offset).trace =
      (List.range (pagedRun env ps offset).trace.length).map
        (fun i => (offset + i * ps, ps)) := by
  induction env with
  | nil =>
    intro offset
    simp [pagedRun, List.range_succ]
  | cons o rest ih =>
    intro offset
    cases o with
    | batch rs =>
      by_cases hrs : rs.isEmpty = true
      · simp [pagedRun, hrs, List.range_succ]
      · simp only [pagedRun, hrs, if_false, Bool.false_eq_true]
        rw [ih (offset + ps)]
        simp only [List.length_cons, List.length_map, List.length_range]
        rw [List.range_succ_eq_map, List.map_cons, List.map_map]
        congr 1
        · simp
        · apply List.map_congr_left
          intro i _
          simp only [Function.comp_apply, Nat.succ_eq_add_one,
            Prod.mk.injEq, and_true]
          ring
    | capacityErr => simp [pagedRun, List.range_succ]
    | fatalErr => simp [pagedRun, List.range_succ]

lemma harvestLoop_succ_normal (occId occLabel : String) (n : Nat)
    (env : List PageOutcome) (ps origPs cf : Nat) (w : List Row)
    (tr : List (Nat × Nat)) (cfs : List Nat)
    (hx : (pagedRun env ps 0).exit = .normal) :
    harvestLoop occId occLabel (n + 1) env ps origPs cf w tr cfs =
      ⟨.completed,
       some (w ++ (pagedRun env ps 0).rows.map
          (fun b => writeRow b occId occLabel)),
       origPs, tr ++ (pagedRun env ps 0).trace, cf, cfs ++ [cf]⟩ := by
  simp [harvestLoop, hx]

lemma harvestLoop_succ_fatal (occId occLabel : String) (n : Nat)
    (env : List PageOutcome) (ps origPs cf : Nat) (w : List Row)
    (tr : List (Nat × Nat)) (cfs : List Nat)
    (hx : (pagedRun env ps 0).exit = .fatal) :
    harvestLoop occId occLabel (n + 1) env ps origPs cf w tr cfs =
      ⟨.fatal,
       some (w ++ (pagedRun env ps 0).rows.map
          (fun b => writeRow b occId occLabel)),
       ps, tr ++ (pagedRun env ps 0).trace, cf, cfs ++ [cf]⟩ := by
  simp [harvestLoop, hx]

lemma harvestLoop_succ_capacity (occId occLabel : String) (n : Nat)
    (env : List PageOutcome) (ps origPs cf : Nat) (w : List Row)
    (tr : List (Nat × Nat)) (cfs : List Nat)
    (hx : (pagedRun env ps 0).exit = .capacity) :
    harvestLoop occId occLabel (n + 1) env ps origPs cf w tr cfs =
      harvestLoop occId occLabel n (pagedRun env ps 0).rest
        (shrinkPageSize ps) origPs (cf + 1)
        (w ++ (pagedRun env ps 0).rows.map
          (fun b => writeRow b occId occLabel))
        (tr ++ (pagedRun env ps 0).trace) (cfs ++ [cf]) := by
  simp [harvestLoop, hx]

lemma harvestLoop_ne_skipped (occId occLabel : String) :
    ∀ fuel env ps origPs cf w tr cfs,
      (harvestLoop occId occLabel fuel env ps origPs cf w tr cfs).ret ≠
        .skipped := by
  intro fuel
  induction fuel with
  | zero => intro env ps origPs cf w tr cfs; simp [harvestLoop]
  | succ n ih =>
    intro env ps origPs cf w tr cfs
    cases hx : (pagedRun env ps 0).exit
    · rw [harvestLoop_succ_normal occId occLabel n env ps origPs cf w tr cfs hx]
      simp
    · rw [harvestLoop_succ_capacity occId occLabel n env ps origPs cf w tr cfs hx]
      exact ih _ _ _ _ _ _ _
    · rw [harvestLoop_succ_fatal occId occLabel n env ps origPs cf w tr cfs hx]
      simp

lemma harvestLoop_file_isSome (occId occLabel : String) :
    ∀ fuel env ps origPs cf w tr cfs,
      (harvestLoop occId occLabel fuel env ps origPs cf w tr cfs).file.isSome =
        true := by
  intro fuel
  induction fuel with
  | zero => intro env ps origPs cf w tr cfs; simp [harvestLoop]
  | succ n ih =>
    intro env ps origPs cf w tr cfs
    cases hx : (pagedRun env ps 0).exit
    · rw [harvestLoop_succ_normal occId occLabel n env ps origPs cf w tr cfs hx]
      rfl
    · rw [harvestLoop_succ_capacity occId occLabel n env ps origPs cf w tr cfs hx]
      exact ih _ _ _ _ _ _ _
    · rw [harvestLoop_succ_fatal occId occLabel n env ps origPs cf w tr cfs hx]
      rfl

lemma harvestLoop_restore (occId occLabel : String) :
    ∀ fuel env ps origPs cf w tr cfs,
      (harvestLoop occId occLabel fuel env ps origPs cf w tr cfs).ret ≠
          .fatal →
        (harvestLoop occId occLabel fuel env ps origPs cf w tr cfs).pageSizeFinal =
          origPs := by
  intro fuel
  induction fuel with
  | zero => intro env ps origPs cf w tr cfs _; simp [harvestLoop]
  | succ n ih =>
    intro env ps origPs cf w tr cfs h
    cases hx : (pagedRun env ps 0).exit
    · rw [harvestLoop_succ_normal occId occLabel n env ps origPs cf w tr cfs hx]
    · rw [harvestLoop_succ_capacity occId occLabel n env ps origPs cf w tr cfs hx] at h ⊢
      exact ih _ _ _ _ _ _ _ h
    · rw [harvestLoop_succ_fatal occId occLabel n env ps origPs cf w tr cfs hx] at h
      exact absurd rfl h

lemma harvestLoop_abandoned_iff (occId occLabel : String) :
    ∀ fuel env ps origPs cf w tr cfs,
      ((harvestLoop occId occLabel fuel env ps origPs cf w tr cfs).ret =
          .abandoned ↔
        (harvestLoop occId occLabel fuel env ps origPs cf w tr cfs).cfFinal =
          cf + fuel) := by
  intro fuel
  induction fuel with
  | zero => intro env ps origPs cf w tr cfs; simp [harvestLoop]
  | succ n ih =>
    intro env ps origPs cf w tr cfs
    cases hx : (pagedRun env ps 0).exit
    · rw [harvestLoop_succ_normal occId occLabel n env ps origPs cf w tr cfs hx]
      simp
    · rw [harvestLoop_succ_capacity occId occLabel n env ps origPs cf w tr cfs hx,
        show cf + (n + 1) = (cf + 1) + n by omega]
      exact ih _ _ _ _ _ _ _
    · rw [harvestLoop_succ_fatal occId occLabel n env ps origPs cf w tr cfs hx]
      simp

lemma harvestLoop_cfTrace_range (occId occLabel : String) :
    ∀ fuel env ps origPs cf w tr,
      (harvestLoop occId occLabel fuel env ps origPs cf w tr
          (List.range cf)).cfTrace =
        List.range
          (harvestLoop occId occLabel fuel env ps origPs cf w tr
              (List.range cf)).cfTrace.length := by
  intro fuel
  induction fuel with
  | zero => intro env ps origPs cf w tr; simp [harvestLoop]
  | succ n ih =>
    intro env ps origPs cf w tr
    cases hx : (pagedRun env ps 0).exit
    · rw [harvestLoop_succ_normal occId occLabel n env ps origPs cf w tr
        (List.range cf) hx]
      simp [← List.range_succ]
    · rw [harvestLoop_succ_capacity occId occLabel n env ps origPs cf w tr
        (List.range cf) hx, ← List.range_succ]
      exact ih _ _ _ _ _ _
    · rw [harvestLoop_succ_fatal occId occLabel n env ps origPs cf w tr
        (List.range cf) hx]
      simp [← List.range_succ]

lemma download_pageSizeFinal_of_ne_fatal (env : List PageOutcome)
    (file : Option (List Row)) (ps : Nat) (occId occLabel : String)
    (h : (download_people_per_occ env file ps occId occLabel).ret ≠ .fatal) :
    (download_people_per_occ env file ps occId occLabel).pageSizeFinal = ps := by
  by_cases hc : csv_has_data file = true
  · simp [download_people_per_occ, hc]
  · simp only [download_people_per_occ, hc, Bool.false_eq_true, if_false] at h ⊢
    exact harvestLoop_restore occId occLabel 3 env ps ps 0 [] [] [] h

/-!
## Claim theorems
-/

/-- C1: for every partition whose output file already exists with a header
plus at least one data row, `download_people_per_occ` returns immediately
(the checkpoint skip): it performs no fetch, and the file is byte-for-byte
unchanged — re-running the harvest leaves it intact. -/
theorem c1_checkpoint_skip (env : List PageOutcome) (file : Option (List Row))
    (ps : Nat) (occId occLabel : String) (h : csv_has_data file = true) :
    download_people_per_occ env file ps occId occLabel =
      ⟨.skipped, file, ps, [], 0, []⟩ := by
  simp [download_people_per_occ, h]

/-- Witness for C1 at a concrete existing non-empty file. -/
theorem c1_checkpoint_skip_witness :
    csv_has_data (some [p1row]) = true ∧
    download_people_per_occ envC2 (some [p1row]) 2000 "Q1" "philosopher" =
      ⟨.skipped, some [p1row], 2000, [], 0, []⟩ :=
  ⟨rfl, c1_checkpoint_skip envC2 (some [p1row]) 2000 "Q1" "philosopher" rfl⟩

/-- C2, counterexample: with a server that answers one non-empty page,
then fails with a capacity error, then answers an empty page, the whole
partition run fetches offsets 0, 2000, 0: after the recovery, pagination
restarts from offset 0 — not from the current offset 2000 — so the fetched
offsets are not strictly increasing over the partition run. -/
theorem c2_counterexample :
    (download_people_per_occ envC2 none 2000 "Q1" "x").trace =
      [(0, 2000), (2000, 2000), (0, 1000)] ∧
    ¬ List.Chain' (fun a b => a < b)
        ((download_people_per_occ envC2 none 2000 "Q1" "x").trace.map
          Prod.fst) := by
  refine ⟨rfl, ?_⟩
  rw [show ((download_people_per_occ envC2 none 2000 "Q1" "x").trace.map
    Prod.fst) = [0, 2000, 0] from rfl]
  simp [List.chain'_cons]

/-- C2 as amended: a capacity recovery restarts pagination from offset 0
(the counterexample exhibits the rewind), and it is within each single
pagination attempt that offsets are strictly increasing, the i-th page of
an attempt being fetched at offset i * page_size — the sum of the page
sizes used for that attempt's prior pages. -/
theorem c2_amended_offsets (env : List PageOutcome) (ps : Nat) (h : 0 < ps) :
    (pagedRun env ps 0).trace =
      (List.range (pagedRun env ps 0).trace.length).map
        (fun i => (i * ps, ps)) ∧
    List.Chain' (fun a b => a < b) ((pagedRun env ps 0).trace.map Prod.fst) := by
  have h0 := pagedRun_trace_eq env ps 0
  simp only [Nat.zero_add] at h0
  refine ⟨h0, ?_⟩
  rw [h0, List.map_map]
  have hmap : (Prod.fst ∘ fun i : Nat => (i * ps, ps)) =
      fun i : Nat => i * ps := rfl
  rw [hmap]
  refine List.Pairwise.chain' ?_
  refine List.Pairwise.map _ ?_ (List.pairwise_lt_range _)
  intro a b hab
  exact (mul_lt_mul_right h).mpr hab

/-- Witness for C2's amended theorem at the counterexample's page size. -/
theorem c2_amended_offsets_witness :
    (0 : Nat) < 2000 ∧
    ((pagedRun envC2 2000 0).trace =
      (List.range (pagedRun envC2 2000 0).trace.length).map
        (fun i => (i * 2000, 2000)) ∧
    List.Chain' (fun a b => a < b)
      ((pagedRun envC2 2000 0).trace.map Prod.fst)) :=
  ⟨by omega, c2_amended_offsets envC2 2000 (by omega)⟩

/-- C3, counterexample: with a server that fails once with a capacity
error and then serves a non-empty page followed by the terminal empty
page, the partition completes normally after fully successful page
fetches, yet `consecutive_fail` still ends at 1: a fully successful page
fetch does not reset the counter to zero. -/
theorem c3_counterexample :
    (download_people_per_occ envC3 none 2000 "Q1" "x").ret = .completed ∧
    (download_people_per_occ envC3 none 2000 "Q1" "x").cfFinal = 1 ∧
    (download_people_per_occ envC3 none 2000 "Q1" "x").cfTrace = [0, 1] ∧
    (download_people_per_occ envC3 none 2000 "Q1" "x").file = some [rowB1] :=
  ⟨rfl, rfl, rfl, rfl⟩

/-- C3 as amended: the counter is partition-scoped — initialized to zero
when the partition's harvest starts and never reset afterwards (the
per-attempt counter values are exactly 0, 1, 2, …, so a fully successful
page fetch leaves it unchanged and it counts all capacity failures of the
partition, not consecutive ones); the harvest returns Abandoned exactly
when the counter reaches 3, and then the partially written output file is
preserved on disk. -/
theorem c3_amended_counter (env : List PageOutcome) (file : Option (List Row))
    (ps : Nat) (occId occLabel : String) (h : csv_has_data file = false) :
    (download_people_per_occ env file ps occId occLabel).cfTrace =
      List.range
        (download_people_per_occ env file ps occId occLabel).cfTrace.length ∧
    ((download_people_per_occ env file ps occId occLabel).ret = .abandoned ↔
      (download_people_per_occ env file ps occId occLabel).cfFinal = 3) ∧
    ((download_people_per_occ env file ps occId occLabel).ret = .abandoned →
      (download_people_per_occ env file ps occId occLabel).file.isSome =
        true) := by
  simp only [download_people_per_occ, h, Bool.false_eq_true, if_false]
  refine ⟨?_, ?_, ?_⟩
  · have h1 := harvestLoop_cfTrace_range occId occLabel 3 env ps ps 0 [] []
    simpa using h1
  · have h2 := harvestLoop_abandoned_iff occId occLabel 3 env ps ps 0 [] [] []
    simpa using h2
  · intro _
    exact harvestLoop_file_isSome occId occLabel 3 env ps ps 0 [] [] []

/-- Witness for C3's amended theorem at the counterexample's input. -/
theorem c3_amended_counter_witness :
    csv_has_data (none : Option (List Row)) = false ∧
    ((download_people_per_occ envC3 none 2000 "Q1" "x").cfTrace =
      List.range
        (download_people_per_occ envC3 none 2000 "Q1" "x").cfTrace.length ∧
    ((download_people_per_occ envC3 none 2000 "Q1" "x").ret = .abandoned ↔
      (download_people_per_occ envC3 none 2000 "Q1" "x").cfFinal = 3) ∧
    ((download_people_per_occ envC3 none 2000 "Q1" "x").ret = .abandoned →
      (download_people_per_occ envC3 none 2000 "Q1" "x").file.isSome =
        true)) :=
  ⟨rfl, c3_amended_counter envC3 none 2000 "Q1" "x" rfl⟩

/-- C4, counterexample: the source keeps a row with birth year 1901 (and a
parseable in-range death), while the claim's stated bounds
(upper-bound = 1900) would drop it: the upper bound the code applies is
1901, not 1900. -/
theorem c4_counterexample :
    keepRow lateRow = true ∧ keepRowClaimed lateRow = false :=
  ⟨rfl, rfl⟩

/-- C4 as amended: consolidation keeps a record iff (its birth date
coerces to a year at most 1901 AND its death date coerces to a year at
least 1800) OR its death field is absent/uncoercible; coercion never
raises, and a date is uncoercible when it is empty, unparseable, an
impossible calendar date, or outside the `datetime64[ns]` representable
range (midnight dates before 1677-09-22 or after 2262-04-11).  With the
code's bounds, the row birth=1810/death=1870 is kept, the row
birth=1950/death=1999 is dropped, any row whose death field does not
coerce is kept regardless of its birth year, and in particular a
birth=1596/death=1650 row is kept because both dates coerce to `NaT`. -/
theorem c4_amended_keep :
    (∀ r : Row, keepRow r = true ↔
      (((∃ b, parseYear r.birth = some b ∧ b ≤ 1901) ∧
        (∃ d, parseYear r.death = some d ∧ 1800 ≤ d)) ∨
       parseYear r.death = none)) ∧
    consolidate_people [some [p1row], some [p2row]] none = some [p1row] ∧
    (∀ r : Row, parseYear r.death = none → keepRow r = true) ∧
    (parseYear earlyRow.birth = none ∧ parseYear earlyRow.death = none ∧
      keepRow earlyRow = true) := by
  refine ⟨?_, rfl, ?_, rfl, rfl, rfl⟩
  · intro r
    unfold keepRow
    cases hb : parseYear r.birth <;> cases hd : parseYear r.death <;>
      simp [hb, hd]
  · intro r h
    simp [keepRow, h]

/-- Witness for C4's amended theorem: a row with an empty death field is
kept. -/
theorem c4_amended_keep_witness :
    parseYear (mkRow "1950-01-01T00:00:00Z" "").death = none ∧
    keepRow (mkRow "1950-01-01T00:00:00Z" "") = true :=
  ⟨rfl, c4_amended_keep.2.2.1 (mkRow "1950-01-01T00:00:00Z" "") rfl⟩

/-- C5: the checkpoint predicate holds iff the file exists and has at
least one data row beyond the header; a header-only file is not skipped
(the partition is re-attempted: the harvest on such a file never returns
the checkpoint skip) and contributes nothing to consolidation. -/
theorem c5_has_data_characterization :
    (∀ f : Option (List Row),
      csv_has_data f = true ↔ ∃ rows, f = some rows ∧ rows ≠ []) ∧
    (∀ env ps occId occLabel,
      (download_people_per_occ env (some []) ps occId occLabel).ret ≠
        .skipped) ∧
    (∀ files prev,
      consolidate_people (some [] :: files) prev =
        consolidate_people files prev) := by
  refine ⟨?_, ?_, ?_⟩
  · intro f
    cases f with
    | none => simp [csv_has_data]
    | some rows => simp [csv_has_data]
  · intro env ps occId occLabel
    simp only [download_people_per_occ, csv_has_data, List.isEmpty_nil,
      Bool.not_true, Bool.false_eq_true, if_false]
    exact harvestLoop_ne_skipped occId occLabel 3 env ps ps 0 [] [] []
  · intro files prev
    simp [consolidate_people, csv_has_data]

/-- Witness for C5 at concrete inputs. -/
theorem c5_has_data_characterization_witness :
    (csv_has_data (some [p1row]) = true ↔
      ∃ rows, some [p1row] = some rows ∧ rows ≠ []) ∧
    (download_people_per_occ [] (some []) 2000 "Q1" "x").ret ≠ .skipped ∧
    consolidate_people [some ([] : List Row), some [p1row]] none =
      consolidate_people [some [p1row]] none :=
  ⟨c5_has_data_characterization.1 (some [p1row]),
   c5_has_data_characterization.2.1 [] 2000 "Q1" "x",
   c5_has_data_characterization.2.2 [some [p1row]] none⟩

/-- C6: every page-size shrinkage lands at or above the floor 500, and a
partition run that ends Completed or Abandoned restores the shared page
size to the value it had when the partition started; consequently every
partition of a driver run starts at the originally configured default. -/
theorem c6_floor_and_restore :
    (∀ ps, 500 ≤ shrinkPageSize ps) ∧
    (∀ env file ps occId occLabel,
      ((download_people_per_occ env file ps occId occLabel).ret =
          .completed ∨
        (download_people_per_occ env file ps occId occLabel).ret =
          .abandoned) →
      (download_people_per_occ env file ps occId occLabel).pageSizeFinal =
        ps) ∧
    (∀ ps tasks x, x ∈ runStartSizes ps tasks → x = ps) := by
  refine ⟨?_, ?_, ?_⟩
  · intro ps
    exact le_max_left 500 (ps / 2)
  · intro env file ps occId occLabel h
    apply download_pageSizeFinal_of_ne_fatal
    rcases h with h | h <;> simp [h]
  · intro ps tasks
    induction tasks generalizing ps with
    | nil => intro x hx; simp [runStartSizes] at hx
    | cons t ts ih =>
      intro x hx
      by_cases hf :
        (download_people_per_occ t.env t.file ps t.occ_id t.occ_label).ret =
          .fatal
      · simp only [runStartSizes, hf, if_true] at hx
        simpa using hx
      · simp only [runStartSizes, hf, if_false] at hx
        rcases List.mem_cons.mp hx with h | h
        · exact h
        · rw [download_pageSizeFinal_of_ne_fatal t.env t.file ps t.occ_id
            t.occ_label hf] at h
          exact ih ps x h

/-- Witness for C6's restoration clause: a run that shrinks the page size
once and then completes hands back the original page size. -/
theorem c6_floor_and_restore_witness :
    ((download_people_per_occ envC2 none 2000 "Q1" "x").ret = .completed ∨
      (download_people_per_occ envC2 none 2000 "Q1" "x").ret = .abandoned) ∧
    (download_people_per_occ envC2 none 2000 "Q1" "x").pageSizeFinal =
      2000 :=
  ⟨Or.inl rfl,
   c6_floor_and_restore.2.1 envC2 none 2000 "Q1" "x" (Or.inl rfl)⟩

/-- C7, counterexample: a 403 (authorization-failure family) response is
re-raised by `_run_once` without the Retry-After sleep, but the `retry`
decorator lists `urllib` `HTTPError` in its exception tuple, so the call
is attempted 3 times with backoff sleeps of 1 s and 2 s before the error
propagates — not propagated immediately after the first attempt with no
retry and no sleep. -/
theorem c7_counterexample :
    runOnce [.urlErr 403 none, .urlErr 403 none, .urlErr 403 none] =
      ⟨.err (.urlHTTP 403), [1, 2], 3⟩ ∧
    (runOnce [.urlErr 403 none, .urlErr 403 none, .urlErr 403 none]).calls ≠
      1 :=
  ⟨rfl, by decide⟩

/-- C7 as amended: for an HTTP error with status outside
{429, 502, 503, 504}, `_run_once` itself does not sleep (no Retry-After
wait), but the surrounding `retry` decorator still catches the re-raised
error and retries: with its ceiling of 3 the query is attempted 3 times,
with exponential backoff sleeps 1 and 2 between attempts, before the
error finally propagates to the caller. -/
theorem c7_amended_fatal_retried (c : Nat) (h : c ∉ retryableCodes)
    (ra : Option Nat) :
    (runOnceStep (.urlErr c ra)).2 = [] ∧
    runOnce [.urlErr c ra, .urlErr c ra, .urlErr c ra] =
      ⟨.err (.urlHTTP c), [1, 2], 3⟩ := by
  have h1 : runOnceStep (.urlErr c ra) = (.err (.urlHTTP c), []) := by
    simp [runOnceStep, h]
  refine ⟨by simp [h1], ?_⟩
  simp [runOnce, retryRun, h1]

/-- Witness for C7's amended theorem at status 403. -/
theorem c7_amended_fatal_retried_witness :
    (403 : Nat) ∉ retryableCodes ∧
    ((runOnceStep (.urlErr 403 none)).2 = [] ∧
    runOnce [.urlErr 403 none, .urlErr 403 none, .urlErr 403 none] =
      ⟨.err (.urlHTTP 403), [1, 2], 3⟩) :=
  ⟨by decide, c7_amended_fatal_retried 403 (by decide) none⟩

/-- C8, counterexample: on a 429 with `Retry-After: 50` followed by a
success, the client sleeps the 50-second hint AND the decorator then
sleeps its computed delay 1 — the hint does not override the computed
delay; and with `Retry-After: 1000000` the full million seconds are
slept — the hinted wait is not clamped to any maximum. -/
theorem c8_counterexample :
    runOnce [.urlErr 429 (some 50), .ok []] = ⟨.ok [], [50, 1], 2⟩ ∧
    runOnce [.urlErr 429 (some 1000000), .ok []] =
      ⟨.ok [], [1000000, 1], 2⟩ :=
  ⟨rfl, rfl⟩

/-- C8 as amended: the decorator's computed delay before the k-th retry is
base 1.0 × multiplier 2.0^k with no maximum clamp (delays stay finite only
because attempts are capped), and a server Retry-After hint on a retryable
status is slept in full, unclamped, inside the client in addition to — not
instead of — the decorator's computed delay: for any hint w, three
consecutive 429 responses produce the sleep sequence w, 1, w, 2, w over
the 3 attempts. -/
theorem c8_amended_sleeps (w : Nat) :
    runOnce (List.replicate 3 (.urlErr 429 (some w))) =
      ⟨.err (.reqHTTP 429), [w, 1, w, 2, w], 3⟩ := by
  simp [runOnce, retryRun, runOnceStep, retryableCodes, List.replicate]

/-- C9: a partition skipped via an existing checkpoint file appears in
the failure report: `download_people_per_occ` exits the checkpoint path
with a bare `return` (value `None`), `main` tests `if not ok:`, and
`None` is falsy, so the skipped partition's (id, label) pair is appended
to the `failed` list exactly as an Abandoned one would be. -/
theorem c9_skipped_reported_failed :
    (download_people_per_occ [] (some [p1row]) 2000 "Q1" "philosopher").ret =
      .skipped ∧
    mainFailed 2000 [⟨"Q1", "philosopher", some [p1row], []⟩] =
      some [("Q1", "philosopher")] :=
  ⟨rfl, rfl⟩

/-- C10: if no partition file passes the checkpoint predicate, there are
no readable frames and consolidation returns without writing: the
previously existing consolidated output is left unchanged. -/
theorem c10_empty_consolidation (files : List (Option (List Row)))
    (prev : Option (List Row)) (h : ∀ f ∈ files, csv_has_data f = false) :
    consolidate_people files prev = prev := by
  have hnil : files.filterMap
      (fun f => if csv_has_data f then f else none) = [] := by
    rw [List.filterMap_eq_nil_iff]
    intro a ha
    simp [h a ha]
  simp [consolidate_people, hnil]

/-- Witness for C10: an absent file plus a header-only file leave a
previous consolidated output untouched. -/
theorem c10_empty_consolidation_witness :
    (∀ f ∈ [none, some ([] : List Row)], csv_has_data f = false) ∧
    consolidate_people [none, some []] (some [p1row]) = some [p1row] :=
  ⟨by decide, c10_empty_consolidation [none, some []] (some [p1row])
    (by decide)⟩

end ScholarCrawler
